import Mathlib

/-!
Verification of the OLS `LinearRegressor` (src/ols_regressor/regressor.py).

The regressor works on numpy float arrays.  Floating point values are
modelled by the type `F`: an exact rational (`F.num q`) or one of the
special values `nan`, `inf`, `ninf` (negative infinity), with IEEE-style
propagation rules for the special values and exact rational arithmetic
otherwise (the usual idealisation: rounding error is not modelled, but the
nan / infinity / division-by-zero behaviour of numpy is).

Inputs to `predict` may additionally contain non-numeric entries (a numpy
array whose dtype is not a number subtype); those are modelled by
`PyVal.nonNum`.

Array-likes passed to `fit` / `predict` are modelled by `PyArr`: a 1-D
array, a rectangular 2-D array, or an array of any other dimension
(`PyArr.arrN n`, whose contents the code never reaches because every path
first checks `ndim`).  `np.linalg.inv` is modelled by the adjugate / cofactor
formula, which agrees with the mathematical inverse (and hence with LAPACK
in exact arithmetic) on nonsingular matrices, and raises `LinAlgError`
exactly when the determinant is zero.
-/

/-- Extended value: an exact rational or one of the IEEE special values. -/
inductive F : Type
| num (q : ℚ)
| nan
| inf
| ninf
deriving DecidableEq

/-- Element of a numpy array handed to `predict`: a float value or a
non-numeric entry (string/object), which makes the whole array's dtype
non-numeric. -/
inductive PyVal : Type
| num (q : ℚ)
| nan
| inf
| ninf
| nonNum
deriving DecidableEq

/-- View of a `PyVal` as a float; only applied after the non-numeric check
of `predict` has passed, so the `nonNum` branch is never reached on the
paths that use it. -/
def PyVal.toF : PyVal → F
| .num q => F.num q
| .nan => F.nan
| .inf => F.inf
| .ninf => F.ninf
| .nonNum => F.nan

/-- IEEE-style addition on extended values. -/
def addF : F → F → F
| F.num a, F.num b => F.num (a + b)
| F.nan, _ => F.nan
| _, F.nan => F.nan
| F.inf, F.ninf => F.nan
| F.ninf, F.inf => F.nan
| F.inf, _ => F.inf
| _, F.inf => F.inf
| F.ninf, _ => F.ninf
| _, F.ninf => F.ninf

/-- IEEE-style negation. -/
def negF : F → F
| F.num a => F.num (-a)
| F.nan => F.nan
| F.inf => F.ninf
| F.ninf => F.inf

/-- Subtraction, as addition of the negation. -/
def subF (a b : F) : F := addF a (negF b)

/-- IEEE-style multiplication (`inf * 0 = nan`, signs as usual). -/
def mulF : F → F → F
| F.num a, F.num b => F.num (a * b)
| F.nan, _ => F.nan
| _, F.nan => F.nan
| F.inf, F.inf => F.inf
| F.inf, F.ninf => F.ninf
| F.ninf, F.inf => F.ninf
| F.ninf, F.ninf => F.inf
| F.inf, F.num b => if 0 < b then F.inf else if b < 0 then F.ninf else F.nan
| F.num a, F.inf => if 0 < a then F.inf else if a < 0 then F.ninf else F.nan
| F.ninf, F.num b => if 0 < b then F.ninf else if b < 0 then F.inf else F.nan
| F.num a, F.ninf => if 0 < a then F.ninf else if a < 0 then F.inf else F.nan

/-- IEEE-style division (`x / 0` is a signed infinity, `0 / 0 = nan`,
`x / inf = 0`, `inf / inf = nan`). -/
def divF : F → F → F
| F.num a, F.num b =>
    if b = 0 then (if 0 < a then F.inf else if a < 0 then F.ninf else F.nan)
    else F.num (a / b)
| F.nan, _ => F.nan
| _, F.nan => F.nan
| F.num _, F.inf => F.num 0
| F.num _, F.ninf => F.num 0
| F.inf, F.num b => if b < 0 then F.ninf else F.inf
| F.ninf, F.num b => if b < 0 then F.inf else F.ninf
| F.inf, F.inf => F.nan
| F.inf, F.ninf => F.nan
| F.ninf, F.inf => F.nan
| F.ninf, F.ninf => F.nan

/-- Squaring, as used by `(... ) ** 2` in `score`. -/
def sqF (a : F) : F := mulF a a

/-- Sum of a list of extended values (numpy reduction). -/
def sumF (l : List F) : F := l.foldl addF (F.num 0)

/-- Dot product of two vectors of extended values. -/
def dotF (xs ys : List F) : F := sumF (List.zipWith mulF xs ys)

/-- A value is finite when it is an actual number (np.isfinite). -/
def F.isFinite : F → Bool
| F.num _ => true
| _ => false

-- Homomorphism lemmas: on actual numbers the extended arithmetic is exact
-- rational arithmetic.

theorem addF_num (a b : ℚ) : addF (F.num a) (F.num b) = F.num (a + b) := rfl

theorem negF_num (a : ℚ) : negF (F.num a) = F.num (-a) := rfl

theorem subF_num (a b : ℚ) : subF (F.num a) (F.num b) = F.num (a - b) := by
  simp [subF, addF, negF, sub_eq_add_neg]

theorem mulF_num (a b : ℚ) : mulF (F.num a) (F.num b) = F.num (a * b) := rfl

theorem divF_num (a b : ℚ) (hb : b ≠ 0) :
    divF (F.num a) (F.num b) = F.num (a / b) := by
  simp [divF, hb]

theorem sqF_num (a : ℚ) : sqF (F.num a) = F.num (a * a) := rfl

theorem sumF_num (l : List ℚ) : sumF (l.map F.num) = F.num l.sum := by
  have h : ∀ (l : List ℚ) (a : ℚ),
      (l.map F.num).foldl addF (F.num a) = F.num (l.foldl (· + ·) a) := by
    intro l
    induction l with
    | nil => intro a; rfl
    | cons x xs ih => intro a; simpa [addF_num] using ih (a + x)
  simpa [List.sum_eq_foldl] using h l 0

theorem dotF_num (xs ys : List ℚ) :
    dotF (xs.map F.num) (ys.map F.num) = F.num (List.zipWith (· * ·) xs ys).sum := by
  have h : List.zipWith mulF (xs.map F.num) (ys.map F.num)
      = (List.zipWith (· * ·) xs ys).map F.num := by
    induction xs generalizing ys with
    | nil => simp
    | cons x xs ih =>
      cases ys with
      | nil => simp
      | cons y ys => simp [ih, mulF_num]
  rw [dotF, h, sumF_num]

/-! Matrices as lists of rows.  `shape1` is numpy's `shape[1]` for a 2-D
array (the common row length); `rectangular` is the wellformedness of a
genuine 2-D numpy array. -/

/-- Common row length of a 2-D array (numpy `shape[1]`). -/
def shape1 {α : Type} (m : List (List α)) : ℕ :=
  match m with
  | [] => 0
  | r :: _ => r.length

/-- Every row has the common length (numpy 2-D arrays are rectangular). -/
def rectangular {α : Type} (m : List (List α)) : Prop :=
  ∀ r ∈ m, r.length = shape1 m

/-- Transpose of a rectangular matrix (numpy `.T`). -/
def transposeF (m : List (List F)) : List (List F) :=
  (List.range (shape1 m)).map (fun j => m.map (fun r => r.getD j (F.num 0)))

/-- Matrix product over extended values (numpy `@`). -/
def matmulF (a b : List (List F)) : List (List F) :=
  a.map (fun r => (transposeF b).map (fun c => dotF r c))

/-- Matrix-vector product over extended values (numpy `@`). -/
def matVecF (m : List (List F)) (v : List F) : List F :=
  m.map (fun r => dotF r v)

/-- Sign `(-1)^j` of a cofactor, as a rational. -/
def cofSign (j : ℕ) : ℚ := if j % 2 = 0 then 1 else -1

/-- Determinant by cofactor expansion along the first row, with explicit
fuel (the fuel is always instantiated with the number of rows, which makes
the recursion structural). -/
def detFuelF : ℕ → List (List F) → F
| _, [] => F.num 1
| 0, _ :: _ => F.num 1
| fuel + 1, r :: rs =>
    sumF ((List.range r.length).map (fun j =>
      mulF (mulF (F.num (cofSign j)) (r.getD j (F.num 0)))
        (detFuelF fuel (rs.map (fun row => row.eraseIdx j)))))

/-- Determinant of a square matrix over extended values. -/
def detF (m : List (List F)) : F := detFuelF m.length m

/-- Adjugate (transposed cofactor matrix) of a square matrix. -/
def adjF (m : List (List F)) : List (List F) :=
  (List.range m.length).map (fun i =>
    (List.range m.length).map (fun j =>
      mulF (F.num (cofSign (i + j)))
        (detF ((m.eraseIdx j).map (fun r => r.eraseIdx i)))))

/-- Matrix inverse (`np.linalg.inv`): `LinAlgError` (modelled as `none`)
exactly when the determinant vanishes, otherwise the adjugate divided by
the determinant — the mathematical inverse in exact arithmetic. -/
def matInvF (m : List (List F)) : Option (List (List F)) :=
  if detF m = F.num 0 then none
  else some ((adjF m).map (fun r => r.map (fun e => divF e (detF m))))

/-- The OLS computation of `fit` (regressor.py line 55):
`np.linalg.inv(X.T @ X) @ X.T @ y`, with Python's left-to-right `@`. -/
def olsF (x : List (List F)) (y : List F) : Option (List F) :=
  (matInvF (matmulF (transposeF x) x)).map
    (fun minv => matVecF (matmulF minv (transposeF x)) y)

/-! Exact-arithmetic mirror over ℚ.  These definitions spell out the
spec's formula `coef = (X^T X)^{-1} X^T y` in exact rational arithmetic;
the refinement theorems below show the extended-value computation of the
code agrees with them on numeric inputs. -/

/-- Transpose over ℚ. -/
def transposeQ (m : List (List ℚ)) : List (List ℚ) :=
  (List.range (shape1 m)).map (fun j => m.map (fun r => r.getD j 0))

/-- Dot product over ℚ. -/
def dotQ (xs ys : List ℚ) : ℚ := (List.zipWith (· * ·) xs ys).sum

/-- Matrix product over ℚ. -/
def matmulQ (a b : List (List ℚ)) : List (List ℚ) :=
  a.map (fun r => (transposeQ b).map (fun c => dotQ r c))

/-- Matrix-vector product over ℚ. -/
def matVecQ (m : List (List ℚ)) (v : List ℚ) : List ℚ :=
  m.map (fun r => dotQ r v)

/-- Fueled cofactor determinant over ℚ. -/
def detFuelQ : ℕ → List (List ℚ) → ℚ
| _, [] => 1
| 0, _ :: _ => 1
| fuel + 1, r :: rs =>
    ((List.range r.length).map (fun j =>
      cofSign j * r.getD j 0 * detFuelQ fuel (rs.map (fun row => row.eraseIdx j)))).sum

/-- Determinant over ℚ. -/
def detQ (m : List (List ℚ)) : ℚ := detFuelQ m.length m

/-- Adjugate over ℚ. -/
def adjQ (m : List (List ℚ)) : List (List ℚ) :=
  (List.range m.length).map (fun i =>
    (List.range m.length).map (fun j =>
      cofSign (i + j) * detQ ((m.eraseIdx j).map (fun r => r.eraseIdx i))))

/-- Exact matrix inverse over ℚ, defined when the determinant is nonzero. -/
def matInvQ (m : List (List ℚ)) : Option (List (List ℚ)) :=
  if detQ m = 0 then none
  else some ((adjQ m).map (fun r => r.map (fun e => e / detQ m)))

/-- The coefficient vector the spec prescribes: `(X^T X)^{-1} X^T y` in
exact arithmetic, defined when `X^T X` is invertible. -/
def olsCoefSpec (x : List (List ℚ)) (y : List ℚ) : Option (List ℚ) :=
  (matInvQ (matmulQ (transposeQ x) x)).map
    (fun minv => matVecQ (matmulQ minv (transposeQ x)) y)

/-! The Python-level model: array-likes, exceptions, and the three methods
of `LinearRegressor` in state-passing style.  The instance state is
`self.coef : Option (List F)` (`None` before the first successful fit).
Each method returns its result (or the raised exception) together with the
state after the call. -/

/-- An array-like after `np.array`: 1-D, rectangular 2-D, or any other
dimension (`arrN n` stands for an array of dimension `n`, with
`n ≠ 1` and `n ≠ 2` — see `PyArr.wf`; its contents are never consulted,
since every code path checks `ndim` first). -/
inductive PyArr (α : Type) : Type
| arr1 (v : List α)
| arr2 (v : List (List α))
| arrN (n : ℕ)

/-- numpy `ndim`. -/
def PyArr.ndim {α : Type} : PyArr α → ℕ
| .arr1 _ => 1
| .arr2 _ => 2
| .arrN n => n

/-- Wellformedness of the model: `arrN` really is of another dimension,
and 2-D arrays are rectangular. -/
def PyArr.wf {α : Type} : PyArr α → Prop
| .arr1 _ => True
| .arr2 v => rectangular v
| .arrN n => n ≠ 1 ∧ n ≠ 2

/-- A raised Python exception: the class together with the message, or one
of the library errors (`np.linalg.LinAlgError` on a singular matrix,
pandas `KeyError` on a missing column). -/
inductive PyErr : Type
| valueError (msg : String)
| typeError (msg : String)
| linAlgError
| keyError (col : String)
deriving DecidableEq

/-- The spec's `NotFittedError`: what regressor.py line 73 raises (a
Python `ValueError` carrying this message). -/
def notFittedError : PyErr := .valueError "Model not fitted. Call fit first."

/-- The spec's `ShapeError` for a non-2-D X (regressor.py lines 43 and 79). -/
def shapeErrX2D : PyErr := .valueError "X should be a 2D array."

/-- The spec's `ShapeError` for a non-1-D y (regressor.py line 45). -/
def shapeErrY1D : PyErr := .valueError "y should be a 1D array."

/-- The spec's `ShapeError` for mismatched sample counts (line 49). -/
def shapeErrLen : PyErr :=
  .valueError "The number of examples in X and y should be equal."

/-- The spec's `ShapeError` for an underdetermined system (line 52). -/
def shapeErrUnder : PyErr :=
  .valueError "The number of examples in X should be greater than the number of features."

/-- The spec's `ShapeError` for a feature-count mismatch in predict (line 83). -/
def shapeErrFeat : PyErr :=
  .valueError "The number of features in X should be equal to the number of coefficients."

/-- Data-quality error for a non-numeric dtype (line 87). -/
def errNonNumeric : PyErr := .valueError "Input contains non-numeric values."

/-- Data-quality error for NaN entries (line 91). -/
def errNaN : PyErr := .valueError "Input contains NaN values."

/-- Data-quality error for infinite entries (line 95). -/
def errInfinite : PyErr := .valueError "Input contains infinite values."

/-- Error for a non-DataFrame argument to score (line 118). -/
def errNotDF : PyErr := .typeError "Input must be a pandas DataFrame"

/-- Error for a too-small DataFrame in score (line 121). -/
def errSmallDF : PyErr := .valueError "DataFrame must have at least two data points"

/-- `LinearRegressor.fit` (regressor.py lines 18-56): the four shape
checks in source order, then the normal-equation solve; on success the
coefficient vector is stored (overwriting the previous state) and
returned. -/
def fit (st : Option (List F)) (x y : PyArr F) :
    Except PyErr (List F) × Option (List F) :=
  match x with
  | .arr2 xv =>
    match y with
    | .arr1 yv =>
      if xv.length ≠ yv.length then (.error shapeErrLen, st)
      else if xv.length < shape1 xv then (.error shapeErrUnder, st)
      else
        match olsF xv yv with
        | none => (.error .linAlgError, st)
        | some c => (.ok c, some c)
    | _ => (.error shapeErrY1D, st)
  | _ => (.error shapeErrX2D, st)

/-- Some entry of the 2-D array is non-numeric, i.e. the array's dtype is
not a number subtype (regressor.py line 86). -/
def hasNonNum (v : List (List PyVal)) : Bool :=
  v.any (fun r => r.any (fun e => e = PyVal.nonNum))

/-- Some entry is NaN (`np.isnan(X).any()`, line 90). -/
def hasNaN (v : List (List PyVal)) : Bool :=
  v.any (fun r => r.any (fun e => e = PyVal.nan))

/-- Some entry is not finite (`not np.isfinite(X).all()`, line 94). -/
def hasNonFinite (v : List (List PyVal)) : Bool :=
  v.any (fun r => r.any (fun e =>
    e = PyVal.nan ∨ e = PyVal.inf ∨ e = PyVal.ninf))

/-- `LinearRegressor.predict` (regressor.py lines 58-98): fitted-state
check, shape checks, data-quality checks in source order, then the
matrix-vector product; the state is never written. -/
def predict (st : Option (List F)) (x : PyArr PyVal) :
    Except PyErr (List F) × Option (List F) :=
  match st with
  | none => (.error notFittedError, st)
  | some coef =>
    match x with
    | .arr2 xv =>
      if shape1 xv ≠ coef.length then (.error shapeErrFeat, st)
      else if hasNonNum xv then (.error errNonNumeric, st)
      else if hasNaN xv then (.error errNaN, st)
      else if hasNonFinite xv then (.error errInfinite, st)
      else (.ok (matVecF (xv.map (fun r => r.map PyVal.toF)) coef), st)
    | _ => (.error shapeErrX2D, st)

/-- A pandas DataFrame: a row count (the index length, `len(df)`) and the
named columns, each of the row count's length. -/
structure DataFrame : Type where
  nrows : ℕ
  cols : List (String × List F)
  wf : ∀ c ∈ cols, (Prod.snd c).length = nrows

/-- Column lookup (`df[name]`), `none` when pandas would raise KeyError. -/
def DataFrame.col? (d : DataFrame) (name : String) : Option (List F) :=
  (d.cols.find? (fun c => c.1 = name)).map (fun c => c.2)

/-- `df.empty`: true when either axis has length zero. -/
def DataFrame.empty (d : DataFrame) : Bool :=
  d.nrows = 0 ∨ d.cols = []

/-- The argument passed to `score`: a genuine DataFrame or anything else
(the `isinstance` check only distinguishes these two cases). -/
inductive ScoreArg : Type
| df (d : DataFrame)
| nonDF

/-- Mean of a list of extended values (`np.mean`). -/
def meanF (l : List F) : F := divF (sumF l) (F.num l.length)

/-- `LinearRegressor.score` (regressor.py lines 100-138): type check, size
check, column extraction, then `R^2 = 1 - SSE/SST`; the state is never
written. -/
def score (st : Option (List F)) (arg : ScoreArg) (trueCol predCol : String) :
    Except PyErr F × Option (List F) :=
  match arg with
  | .nonDF => (.error errNotDF, st)
  | .df d =>
    if d.empty ∨ d.nrows < 2 then (.error errSmallDF, st)
    else
      match d.col? trueCol with
      | none => (.error (.keyError trueCol), st)
      | some yTrue =>
        match d.col? predCol with
        | none => (.error (.keyError predCol), st)
        | some yPred =>
          let m := meanF yTrue
          let sst := sumF (yTrue.map (fun v => sqF (subF v m)))
          let sse := sumF (List.zipWith (fun a b => sqF (subF a b)) yTrue yPred)
          (.ok (subF (F.num 1) (divF sse sst)), st)

/-! Exact-arithmetic mirror of the score computation over ℚ. -/

/-- Mean over ℚ. -/
def meanQ (l : List ℚ) : ℚ := l.sum / l.length

/-- Total sum of squares over ℚ (spec's SST). -/
def sstQ (l : List ℚ) : ℚ := (l.map (fun v => (v - meanQ l) * (v - meanQ l))).sum

/-- Sum of squared errors over ℚ (spec's SSE). -/
def sseQ (yt yp : List ℚ) : ℚ := (List.zipWith (fun a b => (a - b) * (a - b)) yt yp).sum

/-! Lifting: the extended-value computation agrees with the exact
rational computation on purely numeric inputs. -/

/-- Embed a rational vector into extended values. -/
def liftVec (l : List ℚ) : List F := l.map F.num

/-- Embed a rational matrix into extended values. -/
def liftMat (m : List (List ℚ)) : List (List F) := m.map (fun r => r.map F.num)

theorem eraseIdx_map {α β : Type} (f : α → β) (l : List α) (j : ℕ) :
    (l.map f).eraseIdx j = (l.eraseIdx j).map f := by
  induction l generalizing j with
  | nil => simp
  | cons x xs ih =>
    cases j with
    | zero => simp
    | succ n => simp [List.eraseIdx_cons_succ, ih]

theorem getD_lift (r : List ℚ) (j : ℕ) :
    (r.map F.num).getD j (F.num 0) = F.num (r.getD j 0) :=
  List.getD_map r 0 F.num

theorem shape1_lift (m : List (List ℚ)) : shape1 (liftMat m) = shape1 m := by
  cases m <;> simp [liftMat, shape1]

theorem dotQ_lift (xs ys : List ℚ) :
    dotF (xs.map F.num) (ys.map F.num) = F.num (dotQ xs ys) := dotF_num xs ys

theorem transposeQ_lift (m : List (List ℚ)) :
    transposeF (liftMat m) = liftMat (transposeQ m) := by
  unfold transposeF transposeQ
  rw [shape1_lift]
  simp only [liftMat, List.map_map]
  refine List.map_congr_left (fun j _ => ?_)
  simp [Function.comp_def, getD_lift]

theorem matmulQ_lift (a b : List (List ℚ)) :
    matmulF (liftMat a) (liftMat b) = liftMat (matmulQ a b) := by
  unfold matmulF matmulQ
  rw [transposeQ_lift]
  simp only [liftMat, List.map_map]
  refine List.map_congr_left (fun r _ => ?_)
  simp only [Function.comp_def, List.map_map]
  refine List.map_congr_left (fun c _ => ?_)
  exact dotQ_lift r c

theorem matVecQ_lift (m : List (List ℚ)) (v : List ℚ) :
    matVecF (liftMat m) (liftVec v) = liftVec (matVecQ m v) := by
  unfold matVecF matVecQ
  simp only [liftMat, liftVec, List.map_map]
  refine List.map_congr_left (fun r _ => ?_)
  exact dotQ_lift r v

theorem detFuelQ_lift (fuel : ℕ) (m : List (List ℚ)) :
    detFuelF fuel (liftMat m) = F.num (detFuelQ fuel m) := by
  induction fuel generalizing m with
  | zero => cases m <;> rfl
  | succ fuel ih =>
    cases m with
    | nil => rfl
    | cons r rs =>
      have hcons : liftMat (r :: rs) = r.map F.num :: liftMat rs := rfl
      have hL : detFuelF (fuel + 1) (r.map F.num :: liftMat rs)
          = sumF ((List.range r.length).map (fun j =>
              mulF (mulF (F.num (cofSign j)) ((r.map F.num).getD j (F.num 0)))
                (detFuelF fuel ((liftMat rs).map (fun row => row.eraseIdx j))))) := by
        simp [detFuelF]
      have hR : detFuelQ (fuel + 1) (r :: rs)
          = ((List.range r.length).map (fun j =>
              cofSign j * r.getD j 0 *
                detFuelQ fuel (rs.map (fun row => row.eraseIdx j)))).sum := rfl
      rw [hcons, hL, hR]
      have hmap : (List.range r.length).map (fun j =>
          mulF (mulF (F.num (cofSign j)) ((r.map F.num).getD j (F.num 0)))
            (detFuelF fuel ((liftMat rs).map (fun row => row.eraseIdx j))))
          = ((List.range r.length).map (fun j =>
              cofSign j * r.getD j 0 *
                detFuelQ fuel (rs.map (fun row => row.eraseIdx j)))).map F.num := by
        rw [List.map_map]
        refine List.map_congr_left (fun j _ => ?_)
        have hminor : (liftMat rs).map (fun row => row.eraseIdx j)
            = liftMat (rs.map (fun row => row.eraseIdx j)) := by
          simp only [liftMat, List.map_map]
          refine List.map_congr_left (fun row _ => ?_)
          exact eraseIdx_map F.num row j
        simp [Function.comp_def, hminor, ih, getD_lift, mulF_num, mul_assoc]
      rw [hmap, sumF_num]

theorem detQ_lift (m : List (List ℚ)) : detF (liftMat m) = F.num (detQ m) := by
  unfold detF detQ
  rw [show (liftMat m).length = m.length from List.length_map ..]
  exact detFuelQ_lift m.length m

theorem liftMat_eq_map (l : List (List ℚ)) :
    liftMat l = l.map (fun r => r.map F.num) := rfl

theorem adjQ_lift (m : List (List ℚ)) : adjF (liftMat m) = liftMat (adjQ m) := by
  have hdet : ∀ i j : ℕ,
      detF (((liftMat m).eraseIdx j).map (fun r => r.eraseIdx i))
        = F.num (detQ ((m.eraseIdx j).map (fun r => r.eraseIdx i))) := by
    intro i j
    have hminor : ((liftMat m).eraseIdx j).map (fun r => r.eraseIdx i)
        = liftMat ((m.eraseIdx j).map (fun r => r.eraseIdx i)) := by
      show ((m.map (fun r => r.map F.num)).eraseIdx j).map (fun r => r.eraseIdx i) = _
      rw [eraseIdx_map (fun r => r.map F.num) m j]
      simp only [liftMat, List.map_map]
      refine List.map_congr_left (fun row _ => ?_)
      exact eraseIdx_map F.num row i
    rw [hminor, detQ_lift]
  unfold adjF adjQ
  rw [show (liftMat m).length = m.length from List.length_map ..]
  conv_rhs => rw [liftMat_eq_map, List.map_map]
  refine List.map_congr_left (fun i _ => ?_)
  simp only [Function.comp_def, List.map_map]
  refine List.map_congr_left (fun j _ => ?_)
  rw [hdet i j, mulF_num]

theorem matInvQ_lift (m : List (List ℚ)) :
    matInvF (liftMat m) = (matInvQ m).map liftMat := by
  unfold matInvF matInvQ
  rw [detQ_lift m]
  by_cases hd : detQ m = 0
  · simp [hd]
  · have hd' : ¬ (F.num (detQ m) = F.num 0) := by simpa using hd
    rw [if_neg hd', if_neg hd, Option.map_some']
    congr 1
    rw [adjQ_lift]
    simp only [liftMat, List.map_map]
    refine List.map_congr_left (fun r _ => ?_)
    simp only [Function.comp_def, List.map_map]
    refine List.map_congr_left (fun e _ => ?_)
    exact divF_num e (detQ m) hd

theorem olsQ_lift (x : List (List ℚ)) (y : List ℚ) :
    olsF (liftMat x) (liftVec y) = (olsCoefSpec x y).map liftVec := by
  unfold olsF olsCoefSpec
  rw [transposeQ_lift, matmulQ_lift, matInvQ_lift]
  cases matInvQ (matmulQ (transposeQ x) x) with
  | none => rfl
  | some minv =>
    simp only [Option.map_some']
    rw [matmulQ_lift, matVecQ_lift]

/-! Length facts about the OLS computation. -/

theorem length_matVecF (m : List (List F)) (v : List F) :
    (matVecF m v).length = m.length := List.length_map ..

theorem length_matmulF (a b : List (List F)) :
    (matmulF a b).length = a.length := List.length_map ..

theorem length_transposeF (m : List (List F)) :
    (transposeF m).length = shape1 m := by
  simp [transposeF]

theorem length_adjF (m : List (List F)) : (adjF m).length = m.length := by
  simp [adjF]

theorem matInvF_length (m mi : List (List F)) (h : matInvF m = some mi) :
    mi.length = m.length := by
  unfold matInvF at h
  by_cases hd : detF m = F.num 0
  · simp [hd] at h
  · rw [if_neg hd, Option.some.injEq] at h
    rw [← h, List.length_map, length_adjF]

theorem olsF_length (x : List (List F)) (y c : List F) (h : olsF x y = some c) :
    c.length = shape1 x := by
  unfold olsF at h
  rw [Option.map_eq_some'] at h
  obtain ⟨minv, hinv, hc⟩ := h
  rw [← hc, length_matVecF, length_matmulF,
    matInvF_length _ _ hinv, length_matmulF, length_transposeF]

/-! The claims. -/

/-- Claim C5: for every input X, calling predict on an instance on which no
fit has succeeded (state `none`) fails with the spec's NotFittedError — in
the code a `ValueError` carrying the message "Model not fitted. Call fit
first." — and this check precedes all other predict validations: the error
is raised whatever X is (any dimension, any contents). -/
theorem claim_C5 (x : PyArr PyVal) :
    predict none x = (.error notFittedError, none) := rfl

/-- Claim C9: predict and score never mutate the instance state: whatever
the outcome (success or raised error), the state component returned by
either method is exactly the state it was called with. -/
theorem claim_C9 (st : Option (List F)) (x : PyArr PyVal) (arg : ScoreArg)
    (tc pc : String) :
    (predict st x).2 = st ∧ (score st arg tc pc).2 = st := by
  constructor
  · unfold predict
    cases st with
    | none => rfl
    | some coef =>
      cases x with
      | arr1 v => rfl
      | arrN n => rfl
      | arr2 xv =>
        by_cases h1 : shape1 xv ≠ coef.length
        · simp [h1]
        · by_cases h2 : hasNonNum xv
          · simp [h1, h2]
          · by_cases h3 : hasNaN xv
            · simp [h1, h2, h3]
            · by_cases h4 : hasNonFinite xv
              · simp [h1, h2, h3, h4]
              · simp [h1, h2, h3, h4]
  · unfold score
    cases arg with
    | nonDF => rfl
    | df d =>
      by_cases h1 : (d.empty ∨ d.nrows < 2)
      · simp [h1]
      · cases ht : d.col? tc with
        | none => simp [h1, ht]
        | some yt =>
          cases hp : d.col? pc with
          | none => simp [h1, ht, hp]
          | some yp => simp [h1, ht, hp]

/-- Claim C8: score fails with TypeError ("Input must be a pandas
DataFrame") whenever its first argument is not a genuine DataFrame,
whatever the other arguments and the state; and on a genuine DataFrame
with fewer than 2 rows it fails with ValueError ("DataFrame must have at
least two data points").  The type check is unconditional on the non-table
branch, hence precedes the row-count check. -/
theorem claim_C8 :
    (∀ (st : Option (List F)) (tc pc : String),
      score st .nonDF tc pc = (.error errNotDF, st)) ∧
    (∀ (st : Option (List F)) (d : DataFrame) (tc pc : String), d.nrows < 2 →
      score st (.df d) tc pc = (.error errSmallDF, st)) := by
  refine ⟨fun st tc pc => rfl, fun st d tc pc h => ?_⟩
  have : d.empty ∨ d.nrows < 2 := Or.inr h
  simp [score, this]

/-- A one-row DataFrame, used to exhibit the row-count failure of score. -/
def dfOneRow : DataFrame :=
  ⟨1, [("t", [F.num 1]), ("p", [F.num 2])], by simp⟩

/-- Witness for claim C8: concrete instances of both failure branches. -/
theorem claim_C8_witness :
    score none .nonDF "t" "p" = (.error errNotDF, none) ∧
    score none (.df dfOneRow) "t" "p" = (.error errSmallDF, none) :=
  ⟨claim_C8.1 none "t" "p", claim_C8.2 none dfOneRow "t" "p" (by decide)⟩

/-- Claim C6: fit validates its inputs in exactly the source order, first
failure winning, each failure raising the spec's ShapeError (in the code a
`ValueError` with the quoted message): (1) X not exactly 2-dimensional,
(2) y not exactly 1-dimensional, (3) row count of X different from the
length of y, (4) X with fewer rows than columns.  Each conjunct assumes
the negation of the earlier checks, so the stated error is the first one
raised; the state is left untouched on every failure. -/
theorem claim_C6 (st : Option (List F)) (x y : PyArr F) :
    (∀ v : List F, x = .arr1 v → fit st x y = (.error shapeErrX2D, st)) ∧
    (∀ n : ℕ, x = .arrN n → fit st x y = (.error shapeErrX2D, st)) ∧
    (∀ xv : List (List F), x = .arr2 xv → y.ndim ≠ 1 →
      fit st x y = (.error shapeErrY1D, st)) ∧
    (∀ (xv : List (List F)) (yv : List F), x = .arr2 xv → y = .arr1 yv →
      xv.length ≠ yv.length → fit st x y = (.error shapeErrLen, st)) ∧
    (∀ (xv : List (List F)) (yv : List F), x = .arr2 xv → y = .arr1 yv →
      xv.length = yv.length → xv.length < shape1 xv →
      fit st x y = (.error shapeErrUnder, st)) := by
  refine ⟨fun v hx => by rw [hx]; rfl, fun n hx => by rw [hx]; rfl,
    fun xv hx hy => ?_, fun xv yv hx hy hne => ?_, fun xv yv hx hy heq hlt => ?_⟩
  · rw [hx]
    cases y with
    | arr1 v => simp [PyArr.ndim] at hy
    | arr2 v => rfl
    | arrN n => rfl
  · rw [hx, hy]
    simp [fit, hne]
  · rw [hx, hy]
    show (if xv.length ≠ yv.length then ((Except.error shapeErrLen : Except PyErr (List F)), st)
      else if xv.length < shape1 xv then (.error shapeErrUnder, st)
      else match olsF xv yv with
        | none => (.error .linAlgError, st)
        | some c => (.ok c, some c)) = (.error shapeErrUnder, st)
    rw [if_neg (by simp [heq]), if_pos hlt]

/-- Witness for claim C6: all four shape failures at concrete inputs (the
underdetermined case is the spec's surfeit-of-features scenario: 2 samples
and 3 features). -/
theorem claim_C6_witness :
    fit none (.arr1 [F.num 1]) (.arr1 [F.num 1]) = (.error shapeErrX2D, none) ∧
    fit none (.arrN 3) (.arr1 [F.num 1]) = (.error shapeErrX2D, none) ∧
    fit none (.arr2 [[F.num 1]]) (.arr2 [[F.num 1]]) = (.error shapeErrY1D, none) ∧
    fit none (.arr2 [[F.num 1]]) (.arr1 [F.num 1, F.num 2]) = (.error shapeErrLen, none) ∧
    fit none (.arr2 [[F.num 1, F.num 2, F.num 3], [F.num 4, F.num 5, F.num 6]])
      (.arr1 [F.num 1, F.num 2]) = (.error shapeErrUnder, none) :=
  ⟨(claim_C6 none _ (.arr1 [F.num 1])).1 [F.num 1] rfl,
   (claim_C6 none _ (.arr1 [F.num 1])).2.1 3 rfl,
   (claim_C6 none _ (.arr2 [[F.num 1]])).2.2.1 [[F.num 1]] rfl (by decide),
   (claim_C6 none _ (.arr1 [F.num 1, F.num 2])).2.2.2.1 [[F.num 1]] [F.num 1, F.num 2]
     rfl rfl (by decide),
   (claim_C6 none _ (.arr1 [F.num 1, F.num 2])).2.2.2.2
     [[F.num 1, F.num 2, F.num 3], [F.num 4, F.num 5, F.num 6]] [F.num 1, F.num 2]
     rfl rfl (by decide) (by decide)⟩

/-- Claim C7: once the fitted-state and shape checks of predict pass
(state holds a coefficient vector and X is 2-D with matching column
count), the data-quality checks run in source order, each raising a
`ValueError` at the first failure: non-numeric dtype first, then NaN
entries, then infinite entries.  In particular a single NaN anywhere
(second conjunct) raises the NaN error whenever the array's dtype is
numeric, whatever the other entries are. -/
theorem claim_C7 (st : Option (List F)) (coef : List F) (xv : List (List PyVal))
    (hst : st = some coef) (hshape : shape1 xv = coef.length) :
    (hasNonNum xv = true → predict st (.arr2 xv) = (.error errNonNumeric, st)) ∧
    (hasNonNum xv = false → hasNaN xv = true →
      predict st (.arr2 xv) = (.error errNaN, st)) ∧
    (hasNonNum xv = false → hasNaN xv = false → hasNonFinite xv = true →
      predict st (.arr2 xv) = (.error errInfinite, st)) := by
  subst hst
  refine ⟨fun h1 => ?_, fun h1 h2 => ?_, fun h1 h2 h3 => ?_⟩
  · simp [predict, hshape, h1]
  · simp [predict, hshape, h1, h2]
  · simp [predict, hshape, h1, h2, h3]

/-- Witness for claim C7: the three data-quality failures at concrete
inputs; the NaN case has a NaN next to perfectly valid entries. -/
theorem claim_C7_witness :
    predict (some [F.num 1, F.num 2]) (.arr2 [[PyVal.nonNum, PyVal.num 3]])
      = (.error errNonNumeric, some [F.num 1, F.num 2]) ∧
    predict (some [F.num 1, F.num 2]) (.arr2 [[PyVal.num 3, PyVal.nan]])
      = (.error errNaN, some [F.num 1, F.num 2]) ∧
    predict (some [F.num 1, F.num 2]) (.arr2 [[PyVal.inf, PyVal.num 3]])
      = (.error errInfinite, some [F.num 1, F.num 2]) :=
  ⟨(claim_C7 _ [F.num 1, F.num 2] [[PyVal.nonNum, PyVal.num 3]] rfl (by decide)).1
      (by decide),
   (claim_C7 _ [F.num 1, F.num 2] [[PyVal.num 3, PyVal.nan]] rfl (by decide)).2.1
      (by decide) (by decide),
   (claim_C7 _ [F.num 1, F.num 2] [[PyVal.inf, PyVal.num 3]] rfl (by decide)).2.2
      (by decide) (by decide) (by decide)⟩

/-- Reduction of fit once both shape constructors match: the remaining
checks and the solve, exactly as in the source. -/
theorem fit_arr2_arr1 (st : Option (List F)) (xv : List (List F)) (yv : List F) :
    fit st (.arr2 xv) (.arr1 yv)
      = if xv.length ≠ yv.length then (.error shapeErrLen, st)
        else if xv.length < shape1 xv then (.error shapeErrUnder, st)
        else match olsF xv yv with
          | none => (.error .linAlgError, st)
          | some c => (.ok c, some c) := rfl

/-- Claim C4: a successful fit on an X with n_features columns stores a
coefficient vector of length n_features (`shape1 xv`), and a subsequent
predict on that state rejects — with the feature-count ShapeError — every
2-D X whose column count differs from the stored vector's length. -/
theorem claim_C4 (st st' : Option (List F)) (xv : List (List F)) (yv c : List F)
    (h : fit st (.arr2 xv) (.arr1 yv) = (.ok c, st')) :
    st' = some c ∧ c.length = shape1 xv ∧
    (∀ w : List (List PyVal), shape1 w ≠ c.length →
      predict (some c) (.arr2 w) = (.error shapeErrFeat, some c)) := by
  rw [fit_arr2_arr1] at h
  split_ifs at h with h1 h2
  · exact absurd h (by simp)
  · exact absurd h (by simp)
  · cases ho : olsF xv yv with
    | none =>
      rw [ho] at h
      exact absurd h (by simp)
    | some c0 =>
      rw [ho] at h
      simp only [Prod.mk.injEq, Except.ok.injEq] at h
      obtain ⟨hc, hst⟩ := h
      subst hc
      refine ⟨hst.symm, olsF_length _ _ _ ho, fun w hw => ?_⟩
      simp [predict, hw]

/-- Witness for claim C4: the spec's concrete scenario — fitting
X = [[1,1],[1,2],[1,3]], y = [1,2,3] succeeds with coefficients [0, 1] —
followed by the instantiated conclusions. -/
theorem claim_C4_witness :
    some (liftVec [0, 1]) = some (liftVec [0, 1]) ∧
    (liftVec [0, 1]).length = shape1 (liftMat [[1,1],[1,2],[1,3]]) ∧
    (∀ w : List (List PyVal), shape1 w ≠ (liftVec [0, 1]).length →
      predict (some (liftVec [0, 1])) (.arr2 w)
        = (.error shapeErrFeat, some (liftVec [0, 1]))) :=
  claim_C4 none (some (liftVec [0, 1])) (liftMat [[1,1],[1,2],[1,3]])
    (liftVec [1,2,3]) (liftVec [0, 1])
    (by norm_num [fit_arr2_arr1, olsF, matInvF, matmulF, matVecF, transposeF, adjF,
      detF, detFuelF, cofSign, dotF, sumF, addF, mulF, divF, shape1, liftMat, liftVec,
      List.range_succ])

/-- Claim C2: on a fitted instance (state `some coef`) and an X passing
every predict validation, predict returns exactly the matrix-vector
product `X @ coef`, a flat (1-dimensional) list of one value per row of X,
and leaves the state untouched (second component of the result pair). -/
theorem claim_C2 (st : Option (List F)) (coef : List F) (xv : List (List PyVal))
    (hst : st = some coef) (hshape : shape1 xv = coef.length)
    (h1 : hasNonNum xv = false) (h2 : hasNaN xv = false)
    (h3 : hasNonFinite xv = false) :
    predict st (.arr2 xv)
      = (.ok (matVecF (xv.map (fun r => r.map PyVal.toF)) coef), st) ∧
    (matVecF (xv.map (fun r => r.map PyVal.toF)) coef).length = xv.length := by
  subst hst
  constructor
  · simp [predict, hshape, h1, h2, h3]
  · rw [length_matVecF, List.length_map]

/-- Witness for claim C2: a concrete fitted state and input. -/
theorem claim_C2_witness :
    predict (some [F.num 2]) (.arr2 [[PyVal.num 3]])
      = (.ok (matVecF ([[PyVal.num 3]].map (fun r => r.map PyVal.toF)) [F.num 2]),
         some [F.num 2]) ∧
    (matVecF ([[PyVal.num 3]].map (fun r => r.map PyVal.toF)) [F.num 2]).length
      = [[PyVal.num 3]].length :=
  claim_C2 (some [F.num 2]) [F.num 2] [[PyVal.num 3]] rfl (by decide)
    (by decide) (by decide) (by decide)

/-- Claim C1: for every X and y passing fit's four shape validations and
whose normal-equation system is solvable (`olsCoefSpec`, the spec formula
`(X^T X)^{-1} X^T y` computed by direct matrix inverse in exact
arithmetic), fit computes exactly that coefficient vector, stores it as
the new state — overwriting whatever state `st` held before — and returns
the same vector. -/
theorem claim_C1 (st : Option (List F)) (xq : List (List ℚ)) (yq cq : List ℚ)
    (hlen : xq.length = yq.length) (hunder : ¬ (xq.length < shape1 xq))
    (hsolve : olsCoefSpec xq yq = some cq) :
    fit st (.arr2 (liftMat xq)) (.arr1 (liftVec yq))
      = (.ok (liftVec cq), some (liftVec cq)) := by
  have hols : olsF (liftMat xq) (liftVec yq) = some (liftVec cq) := by
    rw [olsQ_lift, hsolve]
    rfl
  have hlen2 : (liftMat xq).length = (liftVec yq).length := by
    simp [liftMat, liftVec, hlen]
  have hnlt : ¬ ((liftMat xq).length < shape1 (liftMat xq)) := by
    rw [shape1_lift]
    simpa [liftMat] using hunder
  rw [fit_arr2_arr1, if_neg (by simp [hlen2]), if_neg hnlt, hols]

/-- Witness for claim C1: the spec's concrete scenario, started from an
already-fitted state to exhibit the overwrite. -/
theorem claim_C1_witness :
    fit (some (liftVec [5])) (.arr2 (liftMat [[1,1],[1,2],[1,3]]))
      (.arr1 (liftVec [1,2,3]))
      = (.ok (liftVec [0, 1]), some (liftVec [0, 1])) :=
  claim_C1 (some (liftVec [5])) [[1,1],[1,2],[1,3]] [1,2,3] [0, 1]
    (by decide) (by decide)
    (by norm_num [olsCoefSpec, matInvQ, matmulQ, matVecQ, transposeQ, adjQ, detQ,
      detFuelQ, cofSign, dotQ, shape1, List.range_succ])

/-- Claim C10: fit performs no data-quality validation.  First conjunct:
for every X and y passing the four shape checks — including any with NaN
or infinite entries, since the element domain is all of `F` — the only
error fit can raise is the numeric inversion failure (`LinAlgError`),
never a non-numeric / NaN / infinity `ValueError`.  Second and third
conjuncts: on X = [[inf]], y = [1] fit succeeds and stores the non-finite
coefficient vector [nan].  Last conjunct: predict, in contrast, rejects
that same infinite input. -/
theorem claim_C10 :
    (∀ (st : Option (List F)) (xv : List (List F)) (yv : List F) (e : PyErr),
      xv.length = yv.length → ¬ (xv.length < shape1 xv) →
      (fit st (.arr2 xv) (.arr1 yv)).1 = .error e → e = .linAlgError) ∧
    fit none (.arr2 [[F.inf]]) (.arr1 [F.num 1]) = (.ok [F.nan], some [F.nan]) ∧
    F.isFinite F.nan = false ∧
    predict (some [F.nan]) (.arr2 [[PyVal.inf]])
      = (.error errInfinite, some [F.nan]) := by
  refine ⟨fun st xv yv e heq hnlt h => ?_, ?_, rfl, ?_⟩
  · rw [fit_arr2_arr1, if_neg (by simp [heq]), if_neg hnlt] at h
    cases ho : olsF xv yv with
    | none =>
      rw [ho] at h
      simpa using h.symm
    | some c0 =>
      rw [ho] at h
      exact absurd h (by simp)
  · simp +decide [fit_arr2_arr1, olsF, matInvF, matmulF, matVecF, transposeF, adjF,
      detF, detFuelF, cofSign, dotF, sumF, addF, mulF, divF, shape1, List.range_succ]
  · simp +decide [predict, hasNonNum, hasNaN, hasNonFinite, shape1]

/-- Witness for claim C10's quantified conjunct: on the singular system
X = [[0]], y = [1] (zero column, so X^T X is singular) fit raises exactly
the LinAlgError. -/
theorem claim_C10_witness : PyErr.linAlgError = PyErr.linAlgError :=
  claim_C10.1 none [[F.num 0]] [F.num 1] .linAlgError rfl (by decide)
    (by norm_num [fit_arr2_arr1, olsF, matInvF, matmulF, matVecF, transposeF, adjF,
      detF, detFuelF, cofSign, dotF, sumF, addF, mulF, divF, shape1, List.range_succ])

/-! Claim C3: lifting of the score computation to exact arithmetic, the
counterexample for the zero-variance case, and the amended statement. -/

theorem DataFrame.col?_length (d : DataFrame) (n : String) (l : List F)
    (h : d.col? n = some l) : l.length = d.nrows := by
  unfold DataFrame.col? at h
  cases hf : d.cols.find? (fun c => c.1 = n) with
  | none => rw [hf] at h; simp at h
  | some c =>
    rw [hf] at h
    simp only [Option.map_some', Option.some.injEq] at h
    have hmem : c ∈ d.cols := List.mem_of_find?_eq_some hf
    rw [← h]
    exact d.wf c hmem

theorem meanF_lift (l : List ℚ) (h : l.length ≠ 0) :
    meanF (l.map F.num) = F.num (meanQ l) := by
  unfold meanF meanQ
  rw [sumF_num, List.length_map]
  exact divF_num _ _ (by exact_mod_cast h)

theorem map_sq_sub_lift (xs : List ℚ) (m : ℚ) :
    (xs.map F.num).map (fun v => sqF (subF v (F.num m)))
      = (xs.map (fun v => (v - m) * (v - m))).map F.num := by
  simp only [List.map_map]
  refine List.map_congr_left (fun v _ => ?_)
  simp [Function.comp_def, subF_num, sqF_num]

theorem zipWith_sq_sub_lift (xs ys : List ℚ) :
    List.zipWith (fun a b => sqF (subF a b)) (xs.map F.num) (ys.map F.num)
      = (List.zipWith (fun a b => (a - b) * (a - b)) xs ys).map F.num := by
  induction xs generalizing ys with
  | nil => simp
  | cons x xs ih =>
    cases ys with
    | nil => simp
    | cons y ys => simp [ih, subF_num, sqF_num]

theorem sseQ_self (l : List ℚ) : sseQ l l = 0 := by
  induction l with
  | nil => rfl
  | cons x xs ih => simp [sseQ, ih]

theorem sseQ_const_mean (yt yp : List ℚ) (m : ℚ) (hlen : yp.length = yt.length)
    (hall : ∀ v ∈ yp, v = m) :
    sseQ yt yp = (yt.map (fun a => (a - m) * (a - m))).sum := by
  induction yt generalizing yp with
  | nil => simp [sseQ]
  | cons a as ih =>
    cases yp with
    | nil => simp at hlen
    | cons b bs =>
      have hb : b = m := hall b (by simp)
      have hrec := ih bs (by simpa using hlen) (fun v hv => hall v (by simp [hv]))
      simp only [sseQ, List.zipWith_cons_cons, List.map_cons, List.sum_cons] at hrec ⊢
      rw [hb, hrec]

/-- A DataFrame whose true column is constant and whose predicted column
equals it (hence equals the true column's mean). -/
def dfConst : DataFrame :=
  ⟨2, [("t", liftVec [1, 1]), ("p", liftVec [1, 1])], by decide⟩

/-- Counterexample for claim C3 as stated: in `dfConst` every predicted
value (1) equals the mean of the true values (`meanQ [1,1] = 1`), the
table is accepted (2 rows), yet score returns NaN — the computation is
0/0 since SST = 0 — and not 0.0 as the claim demands. -/
theorem claim_C3_counterexample :
    meanQ [1, 1] = 1 ∧
    (score none (.df dfConst) "t" "p").1 = .ok F.nan ∧ F.nan ≠ F.num 0 := by
  refine ⟨by norm_num [meanQ], ?_, by decide⟩
  simp +decide [score, dfConst, DataFrame.col?, DataFrame.empty, meanF, sumF, sqF,
    subF, addF, negF, mulF, divF, liftVec, List.find?]

/-- Claim C3 (amended): for every table accepted by score whose named
columns hold the numeric values ytq (true) and ypq (predicted), and whose
true column has nonzero total sum of squares (SST), score returns exactly
`1 - SSE/SST`; in particular it returns exactly 1.0 when the predicted
column equals the true column element-wise, and exactly 0.0 when every
predicted value equals the mean of the true values.  The SST ≠ 0 proviso
is forced by the counterexample `claim_C3_counterexample`: with SST = 0
the division is 0/0 (or x/0) and the result is non-finite, as the spec's
zero-variance limitation documents. -/
theorem claim_C3 (st : Option (List F)) (d : DataFrame) (tc pc : String)
    (ytq ypq : List ℚ) (hrows : 2 ≤ d.nrows)
    (ht : d.col? tc = some (liftVec ytq)) (hp : d.col? pc = some (liftVec ypq))
    (hsst : sstQ ytq ≠ 0) :
    score st (.df d) tc pc = (.ok (F.num (1 - sseQ ytq ypq / sstQ ytq)), st) ∧
    (ypq = ytq → score st (.df d) tc pc = (.ok (F.num 1), st)) ∧
    ((∀ v ∈ ypq, v = meanQ ytq) → score st (.df d) tc pc = (.ok (F.num 0), st)) := by
  have hytlen : ytq.length = d.nrows := by
    have h := DataFrame.col?_length d tc _ ht
    simpa [liftVec] using h
  have hyplen : ypq.length = d.nrows := by
    have h := DataFrame.col?_length d pc _ hp
    simpa [liftVec] using h
  have hcolsne : d.cols ≠ [] := by
    intro hc
    rw [DataFrame.col?, hc] at ht
    simp at ht
  have hne : ¬ (d.empty = true ∨ d.nrows < 2) := by
    intro hor
    rcases hor with h | h
    · have h2 : d.nrows = 0 ∨ d.cols = [] := by simpa [DataFrame.empty] using h
      rcases h2 with h0 | h0
      · omega
      · exact hcolsne h0
    · omega
  have hmain : score st (.df d) tc pc
      = (.ok (F.num (1 - sseQ ytq ypq / sstQ ytq)), st) := by
    simp only [score, ht, hp]
    rw [if_neg hne]
    have hmean : meanF (liftVec ytq) = F.num (meanQ ytq) := by
      unfold liftVec
      exact meanF_lift ytq (by omega)
    rw [hmean]
    have hsstF : sumF ((liftVec ytq).map (fun v => sqF (subF v (F.num (meanQ ytq)))))
        = F.num (sstQ ytq) := by
      unfold liftVec
      rw [map_sq_sub_lift, sumF_num]
      rfl
    have hsseF : sumF (List.zipWith (fun a b => sqF (subF a b))
        (liftVec ytq) (liftVec ypq)) = F.num (sseQ ytq ypq) := by
      unfold liftVec
      rw [zipWith_sq_sub_lift, sumF_num]
      rfl
    rw [hsstF, hsseF, divF_num _ _ hsst, subF_num]
  refine ⟨hmain, fun hpe => ?_, fun hall => ?_⟩
  · subst hpe
    rw [hmain, sseQ_self]
    norm_num
  · have hsse : sseQ ytq ypq = sstQ ytq := by
      rw [sseQ_const_mean ytq ypq (meanQ ytq) (by omega) hall]
      rfl
    rw [hmain, hsse, div_self hsst]
    norm_num

/-- The spec's perfect-prediction scenario. -/
def dfPerfect : DataFrame :=
  ⟨4, [("t", liftVec [1, 2, 3, 4]), ("p", liftVec [1, 2, 3, 4])], by decide⟩

/-- The spec's mean-prediction scenario. -/
def dfMeanPred : DataFrame :=
  ⟨4, [("t", liftVec [1, 2, 3, 4]), ("p", liftVec [5/2, 5/2, 5/2, 5/2])], by decide⟩

/-- Witness for claim C3: the spec's two concrete scoring scenarios,
R-squared exactly 1.0 on perfect predictions and exactly 0.0 on
mean predictions. -/
theorem claim_C3_witness :
    score none (.df dfPerfect) "t" "p" = (.ok (F.num 1), none) ∧
    score none (.df dfMeanPred) "t" "p" = (.ok (F.num 0), none) :=
  ⟨(claim_C3 none dfPerfect "t" "p" [1, 2, 3, 4] [1, 2, 3, 4] (by decide) rfl rfl
      (by norm_num [sstQ, meanQ])).2.1 rfl,
   (claim_C3 none dfMeanPred "t" "p" [1, 2, 3, 4] [5/2, 5/2, 5/2, 5/2] (by decide)
      rfl rfl (by norm_num [sstQ, meanQ])).2.2 (by norm_num [meanQ])⟩
